import Mathlib

/-!
Formal model of the EYRND Population Health Management allocation scripts.

The repository contains three scripts:
* `M.O.F-to-DA-Projections.py` (script 1): disaggregates regional projections to
  dissemination areas (DAs), splitting the two border DAs by fixed weights and
  using each stratum's own DA population sum as the share denominator.
* `MOF-Projections-to-DA-Dissagregation.py` (script 2): same goal, but assigns
  each DA wholly to one region by its 4-digit code and divides by a fixed 2021
  census total instead of the stratum's own sum.
* `3 Different Mapping Approaches.py`: three DA-to-FSA reallocation approaches
  (DA counts, dominant-FSA population, proportional allocation).

Numeric columns are modelled over `ℚ` (the scripts use binary floating point;
all the quantities and identities of interest are exact in rational
arithmetic).  A pandas value that would be `NaN`/`inf` (a failed left join, a
division by zero) is modelled as `none : Option ℚ`; pandas sums, which skip
`NaN`, are modelled by summing `Option.getD · 0`.  DA identifiers are lists of
characters (the scripts work on `str(da_uid)`); categorical labels are finite
inductive types.
-/

/-- Age-group labels produced by `map_single_year_to_custom_group`
(`'0-17'`, `'18-44'`, `'45-64'`, `'65-84'`, `'85+'`, `'Unknown'`). -/
inductive AgeGroup where
  | A0to17 | A18to44 | A45to64 | A65to84 | A85plus | AUnknown
deriving DecidableEq

/-- Sex codes kept after cleaning (`'M'`, `'F'`). -/
inductive Sex where
  | M | F
deriving DecidableEq

/-- Region labels used by script 1's `assign_region`
(`'Durham'`, `'York'`, `'Border'`, `'Unknown'`). -/
inductive Region where
  | Durham | York | Border | UnknownRegion
deriving DecidableEq

/-- The two long public-health-unit names appearing in the projection sheet
(`'Durham Region Health Department'`, `'York Region Public Health Services'`). -/
inductive RegionLong where
  | DurhamRHD | YorkRPHS
deriving DecidableEq

/-- Script 1, `map_single_year_to_custom_group` (lines 36-48). -/
def map_single_year_to_custom_group (age : ℤ) : AgeGroup :=
  if 0 ≤ age ∧ age ≤ 17 then AgeGroup.A0to17
  else if 18 ≤ age ∧ age ≤ 44 then AgeGroup.A18to44
  else if 45 ≤ age ∧ age ≤ 64 then AgeGroup.A45to64
  else if 65 ≤ age ∧ age ≤ 84 then AgeGroup.A65to84
  else if 85 ≤ age then AgeGroup.A85plus
  else AgeGroup.AUnknown

/-- Script 2, `map_single_year_to_custom_group` (lines 12-24); textually the
same function as in script 1. -/
def map_single_year_to_custom_group_v2 (age : ℤ) : AgeGroup :=
  if 0 ≤ age ∧ age ≤ 17 then AgeGroup.A0to17
  else if 18 ≤ age ∧ age ≤ 44 then AgeGroup.A18to44
  else if 45 ≤ age ∧ age ≤ 64 then AgeGroup.A45to64
  else if 65 ≤ age ∧ age ≤ 84 then AgeGroup.A65to84
  else if 85 ≤ age then AgeGroup.A85plus
  else AgeGroup.AUnknown

/-- Digits `'3518'`, the Durham DA code (`durham_prefix` in script 2, and the
comparison constant in script 1's `assign_region`). -/
def durhamCode : List Char := ['3', '5', '1', '8']

/-- Digits `'3519'`, the York DA code. -/
def yorkCode : List Char := ['3', '5', '1', '9']

/-- `str(DA_UID)` of the first border DA, `'35190009'`. -/
def uidB1 : List Char := ['3', '5', '1', '9', '0', '0', '0', '9']

/-- `str(DA_UID)` of the second border DA, `'35190965'`. -/
def uidB2 : List Char := ['3', '5', '1', '9', '0', '9', '6', '5']

/-- Script 1's constant `DA_BORDER_DAs` (lines 30-33): the two
border-straddling DAs with their fixed region weights. -/
def DA_BORDER_DAs : List (List Char × List (Region × ℚ)) :=
  [(uidB1, [(Region.Durham, 0.125), (Region.York, 0.875)]),
   (uidB2, [(Region.Durham, 0.028), (Region.York, 0.972)])]

/-- A row of the `DA x Age x Sex` sheet after cleaning: one `Pop` value per
(DA, age group, sex). -/
structure DARow where
  da_uid : List Char
  ageGroup : AgeGroup
  sex : Sex
  pop : ℚ
deriving DecidableEq

/-- A row of script 1's `df_da` after the `Region` column is added (and, after
splitting, a row of `df_da_clean`); also a row of script 2's `df_da` after its
`REGION NAME` column is added (there `region` is only ever `Durham`/`York`). -/
structure CRow where
  da_uid : List Char
  ageGroup : AgeGroup
  sex : Sex
  region : Region
  pop : ℚ
deriving DecidableEq

/-- Script 1, `assign_region` (lines 129-137): border DAs are tagged
`Border`; otherwise the first four digits decide the region. -/
def assign_region (border : List (List Char × List (Region × ℚ)))
    (da_uid daHead : List Char) : Region :=
  if (border.lookup da_uid).isSome then Region.Border
  else if daHead = yorkCode then Region.York
  else if daHead = durhamCode then Region.Durham
  else Region.UnknownRegion

/-- The `Region` column value of a DA row (script 1 line 139:
`assign_region(str(x['DA_UID']), x['DA_prefix'])` with
`DA_prefix = str(DA_UID)[:4]`). -/
def rowRegion (border : List (List Char × List (Region × ℚ))) (r : DARow) : Region :=
  assign_region border r.da_uid (r.da_uid.take 4)

/-- Script 1's `df_da` with its `Region` column (line 139). -/
def df_da_tagged (border : List (List Char × List (Region × ℚ)))
    (rows : List DARow) : List CRow :=
  rows.map (fun r =>
    { da_uid := r.da_uid, ageGroup := r.ageGroup, sex := r.sex,
      region := rowRegion border r, pop := r.pop })

/-- Script 1, lines 153-164: every `Border` row is expanded into one row per
entry of its weight dict, with `Pop` scaled by the weight and `Region`
replaced by the entry's region. -/
def df_border_split (border : List (List Char × List (Region × ℚ)))
    (rows : List DARow) : List CRow :=
  ((df_da_tagged border rows).filter (fun r => decide (r.region = Region.Border))).flatMap
    (fun r => ((border.lookup r.da_uid).getD []).map
      (fun rw => { da_uid := r.da_uid, ageGroup := r.ageGroup, sex := r.sex,
                   region := rw.1, pop := r.pop * rw.2 }))

/-- Script 1, lines 167-168: non-border rows plus the split border rows. -/
def df_da_clean (border : List (List Char × List (Region × ℚ)))
    (rows : List DARow) : List CRow :=
  (df_da_tagged border rows).filter (fun r => decide (¬ r.region = Region.Border))
    ++ df_border_split border rows

/-- `df_da.groupby('DA_UID')['Pop'].sum()` at one DA (script 1 line 175). -/
def popOfDA (rows : List DARow) (u : List Char) : ℚ :=
  ((rows.filter (fun r => decide (r.da_uid = u))).map (fun r => r.pop)).sum

/-- `df_da_clean.groupby('DA_UID')['Pop'].sum()` at one DA (script 1
line 176). -/
def popOfDAClean (l : List CRow) (u : List Char) : ℚ :=
  ((l.filter (fun r => decide (r.da_uid = u))).map (fun r => r.pop)).sum

/-- Script 1 line 178: `(orig_pop_by_da - new_pop_by_da).abs().sum()`, the
total absolute change of the per-DA population sums caused by splitting. -/
def pop_diff (border : List (List Char × List (Region × ℚ)))
    (rows : List DARow) : ℚ :=
  (((rows.map (fun r => r.da_uid)).dedup).map
    (fun u => |popOfDA rows u - popOfDAClean (df_da_clean border rows) u|)).sum

/-- `groupby(['Region', 'AgeGroup', 'Sex'])['Pop'].sum()` over `df_da_clean`
at one stratum (script 1 line 189): the stratum total used as the share
denominator. -/
def regionPop (l : List CRow) (reg : Region) (ag : AgeGroup) (sx : Sex) : ℚ :=
  ((l.filter (fun r => decide (r.region = reg ∧ r.ageGroup = ag ∧ r.sex = sx))).map
    (fun r => r.pop)).sum

/-- Pandas float division `a / b`: a zero denominator produces `NaN` (for
`a = 0`) or `±inf`, both modelled as `none`; no exception is raised. -/
def pandasDiv (a b : ℚ) : Option ℚ :=
  if b = 0 then none else some (a / b)

/-- Script 1 line 200: `DA_Share = Pop / RegionPop` for a row of
`df_da_clean`. -/
def DA_Share (border : List (List Char × List (Region × ℚ)))
    (rows : List DARow) (r : CRow) : Option ℚ :=
  pandasDiv r.pop (regionPop (df_da_clean border rows) r.region r.ageGroup r.sex)

/-- Script 1 line 213: `groupby(['Region', 'AgeGroup', 'Sex'])['DA_Share'].sum()`
at one stratum (pandas sums skip `NaN`, hence `Option.getD · 0`). -/
def shareSum1 (border : List (List Char × List (Region × ℚ)))
    (rows : List DARow) (reg : Region) (ag : AgeGroup) (sx : Sex) : ℚ :=
  (((df_da_clean border rows).filter
      (fun r => decide (r.region = reg ∧ r.ageGroup = ag ∧ r.sex = sx))).map
    (fun r => (DA_Share border rows r).getD 0)).sum

/-- Script 1 lines 229-234, `region_map_proj`: maps the short region labels to
the projection sheet's long names; any other label maps to `NaN` (`none`). -/
def region_map_proj : Region → Option RegionLong
  | Region.York => some RegionLong.YorkRPHS
  | Region.Durham => some RegionLong.DurhamRHD
  | _ => none

/-- A row of `df_proj_agg`: the externally supplied regional projection total
for one (year, region, sex, age-group) stratum. -/
structure ProjRow where
  year : ℤ
  regionName : RegionLong
  sex : Sex
  ageGroup : AgeGroup
  pop : ℚ
deriving DecidableEq

/-- The right-hand side of script 1's left merge (lines 248-251): the
projection total `Pop_y` matched to a share row's
(`Region_proj_name`, `Sex`, `AgeGroup`) for a given year; `none` models the
`NaN` a left merge leaves when no projection row matches (in particular when
`Region_proj_name` itself is `NaN`). -/
def lookupTarget (proj : List ProjRow) (y : ℤ) (rn : Option RegionLong)
    (sx : Sex) (ag : AgeGroup) : Option ℚ :=
  match rn with
  | none => none
  | some n =>
    ((proj.filter (fun p =>
        decide (p.year = y ∧ p.regionName = n ∧ p.sex = sx ∧ p.ageGroup = ag))).map
      (fun p => p.pop)).head?

/-- Float multiplication with `NaN` propagation: if either factor is missing
the product is missing. -/
def optMul : Option ℚ → Option ℚ → Option ℚ
  | some a, some b => some (a * b)
  | _, _ => none

/-- A row of script 1's output `df_projected` (line 257: columns `DA_UID`,
`Sex`, `AgeGroup`, `Region`, `YEAR (JULY 1)`, `Projected_Pop`). -/
structure MRow where
  da_uid : List Char
  sex : Sex
  ageGroup : AgeGroup
  region : Region
  year : ℤ
  projected_Pop : Option ℚ
deriving DecidableEq

/-- Script 1 line 254: `Projected_Pop = DA_Share * Pop_y` for one share row
and one year. -/
def allocFor (border : List (List Char × List (Region × ℚ)))
    (rows : List DARow) (proj : List ProjRow) (y : ℤ) (r : CRow) : Option ℚ :=
  optMul (DA_Share border rows r)
    (lookupTarget proj y (region_map_proj r.region) r.sex r.ageGroup)

/-- Script 1 lines 244-262: for every projection year, merge the share table
with that year's projections and multiply; concatenate all years. -/
def df_projected (border : List (List Char × List (Region × ℚ)))
    (rows : List DARow) (proj : List ProjRow) : List MRow :=
  ((proj.map (fun p => p.year)).dedup).flatMap (fun y =>
    (df_da_clean border rows).map (fun r =>
      { da_uid := r.da_uid, sex := r.sex, ageGroup := r.ageGroup,
        region := r.region, year := y,
        projected_Pop := allocFor border rows proj y r }))

/-- Script 1 line 270: the summed projected population of one output stratum
(`groupby(['YEAR (JULY 1)', 'Region_proj_name', 'Sex', 'AgeGroup'])` then
`['Projected_Pop'].sum()`; pandas sums skip `NaN`). -/
def allocSum (out : List MRow) (y : ℤ) (n : RegionLong) (sx : Sex) (ag : AgeGroup) : ℚ :=
  ((out.filter (fun r =>
      decide (r.year = y ∧ region_map_proj r.region = some n ∧ r.sex = sx ∧ r.ageGroup = ag))).map
    (fun r => (r.projected_Pop).getD 0)).sum

/-- Script 1 line 275: `Difference = Projected_Pop - Pop` for one stratum of
`proj_check`; the left merge at lines 271-273 leaves `NaN` (`none`) when the
stratum has no projection total. -/
def proj_check_diff (out : List MRow) (proj : List ProjRow) (y : ℤ)
    (n : RegionLong) (sx : Sex) (ag : AgeGroup) : Option ℚ :=
  match lookupTarget proj y (some n) sx ag with
  | none => none
  | some t => some (allocSum out y n sx ag - t)

/-- The stratum keys of `proj_check` (groupby keys over the output; pandas
drops groups whose `Region_proj_name` key is `NaN`). -/
def strataOf (out : List MRow) : List (ℤ × RegionLong × Sex × AgeGroup) :=
  (out.filterMap (fun r =>
    (region_map_proj r.region).map (fun n => (r.year, n, r.sex, r.ageGroup)))).dedup

/-- Script 1 line 280: `proj_check['Difference'].abs().max()`; `NaN` entries
are skipped and an all-`NaN`/empty column has a `NaN` maximum (`none`). -/
def max_diff (out : List MRow) (proj : List ProjRow) : Option ℚ :=
  (((strataOf out).filterMap
      (fun k => proj_check_diff out proj k.1 k.2.1 k.2.2.1 k.2.2.2)).map
    (fun d => |d|)).max?

/-- The two `assert` failures that can abort script 1's run: line 180
(population changed by splitting border DAs) and line 283 (DA sums differ
from the regional totals). -/
inductive RunError where
  | splitError | conservationError
deriving DecidableEq

/-- Script 1 as a pipeline: the split-conservation assert at line 180 gates
the allocation, and the conservation assert at line 283
(`assert max_diff < 1e-2`) gates the result.  A failed assert halts the run
(`Except.error`); note `NaN < 1e-2` is false in Python, so an all-`NaN`
difference column also halts. -/
def script1_run (border : List (List Char × List (Region × ℚ)))
    (rows : List DARow) (proj : List ProjRow) : Except RunError (List MRow) :=
  if pop_diff border rows < 1 / 100000 then
    match max_diff (df_projected border rows proj) proj with
    | some m =>
      if m < 1 / 100 then Except.ok (df_projected border rows proj)
      else Except.error RunError.conservationError
    | none => Except.error RunError.conservationError
  else Except.error RunError.splitError

/-- Script 2, `assign_region_by_da` (lines 106-112): a DA whose identifier
starts with `'3518'` is Durham, else `'3519'` is York, else out of scope
(`None`). -/
def assign_region_by_da (da_uid : List Char) : Option Region :=
  if durhamCode.isPrefixOf da_uid then some Region.Durham
  else if yorkCode.isPrefixOf da_uid then some Region.York
  else none

/-- Script 2 lines 115-118: add the `REGION NAME` column and drop the rows
with no assigned region. -/
def df_da2 (rows : List DARow) : List CRow :=
  rows.filterMap (fun r => (assign_region_by_da r.da_uid).map (fun reg =>
    { da_uid := r.da_uid, ageGroup := r.ageGroup, sex := r.sex,
      region := reg, pop := r.pop }))

/-- Script 2 lines 153-177, `region_age_sex_2021`: the fixed 2021 census
lookup table of regional populations by age group and sex. -/
def region_age_sex_2021 : List (Region × AgeGroup × Sex × ℚ) :=
  [(Region.Durham, AgeGroup.A0to17, Sex.M, 64230),
   (Region.Durham, AgeGroup.A0to17, Sex.F, 61275),
   (Region.Durham, AgeGroup.A18to44, Sex.M, 112090),
   (Region.Durham, AgeGroup.A18to44, Sex.F, 115440),
   (Region.Durham, AgeGroup.A45to64, Sex.M, 92015),
   (Region.Durham, AgeGroup.A45to64, Sex.F, 98190),
   (Region.Durham, AgeGroup.A65to84, Sex.M, 44930),
   (Region.Durham, AgeGroup.A65to84, Sex.F, 52505),
   (Region.Durham, AgeGroup.A85plus, Sex.M, 5085),
   (Region.Durham, AgeGroup.A85plus, Sex.F, 8560),
   (Region.York, AgeGroup.A0to17, Sex.M, 137415),
   (Region.York, AgeGroup.A0to17, Sex.F, 129640),
   (Region.York, AgeGroup.A18to44, Sex.M, 178575),
   (Region.York, AgeGroup.A18to44, Sex.F, 184805),
   (Region.York, AgeGroup.A45to64, Sex.M, 164490),
   (Region.York, AgeGroup.A45to64, Sex.F, 179230),
   (Region.York, AgeGroup.A65to84, Sex.M, 82165),
   (Region.York, AgeGroup.A65to84, Sex.F, 92990),
   (Region.York, AgeGroup.A85plus, Sex.M, 9590),
   (Region.York, AgeGroup.A85plus, Sex.F, 14435)]

/-- The census total (`True_Region_Pop_2021`) a DA row receives in script 2's
left merge (lines 189-193); `none` models the `NaN` of an unmatched key. -/
def trueRegionPop (reg : Region) (ag : AgeGroup) (sx : Sex) : Option ℚ :=
  ((region_age_sex_2021.filter (fun e =>
      decide (e.1 = reg ∧ e.2.1 = ag ∧ e.2.2.1 = sx))).map
    (fun e => e.2.2.2)).head?

/-- Script 2 line 200: `Prop_DA_in_Region_2021 = Pop / True_Region_Pop_2021`;
the denominator is the fixed census figure, not the stratum's own DA sum. -/
def prop_DA_in_Region_2021 (r : CRow) : Option ℚ :=
  match trueRegionPop r.region r.ageGroup r.sex with
  | none => none
  | some t => pandasDiv r.pop t

/-- The DA population sum of one (region, age group, sex) stratum in
script 2's DA table: the `StratumTotal` of that path. -/
def stratumPop2 (rows : List DARow) (reg : Region) (ag : AgeGroup) (sx : Sex) : ℚ :=
  (((df_da2 rows).filter (fun r =>
      decide (r.region = reg ∧ r.ageGroup = ag ∧ r.sex = sx))).map
    (fun r => r.pop)).sum

/-- The sum of `Prop_DA_in_Region_2021` over one (region, age group, sex)
stratum of script 2's DA table. -/
def shareSum2 (rows : List DARow) (reg : Region) (ag : AgeGroup) (sx : Sex) : ℚ :=
  (((df_da2 rows).filter (fun r =>
      decide (r.region = reg ∧ r.ageGroup = ag ∧ r.sex = sx))).map
    (fun r => (prop_DA_in_Region_2021 r).getD 0)).sum

/-- Script 2 lines 231-234, `region_name_map`: long projection region names to
the short labels used in the DA table. -/
def region_name_map : RegionLong → Region
  | RegionLong.DurhamRHD => Region.Durham
  | RegionLong.YorkRPHS => Region.York

/-- A row of script 2's `df_combined` (lines 247-252): a projection row joined
with one matching DA share row (`da_uid = none` models the `NaN` columns a
left merge leaves when no DA row matches). -/
structure CombRow where
  year : ℤ
  regionName : RegionLong
  ageGroup : AgeGroup
  sex : Sex
  da_uid : Option (List Char)
  projected_Pop : Option ℚ
deriving DecidableEq

/-- Script 2 lines 247-265: left-merge the projections with the DA proportions
on (`Region_Short`, `AgeGroup`, `Sex`) and compute
`Projected_Pop = Pop * Prop_DA_in_Region_2021`. -/
def df_combined (rows : List DARow) (proj : List ProjRow) : List CombRow :=
  proj.flatMap (fun p =>
    let ms := (df_da2 rows).filter (fun d =>
      decide (d.region = region_name_map p.regionName
        ∧ d.ageGroup = p.ageGroup ∧ d.sex = p.sex))
    if ms.isEmpty then
      [{ year := p.year, regionName := p.regionName, ageGroup := p.ageGroup,
         sex := p.sex, da_uid := none, projected_Pop := none }]
    else ms.map (fun d =>
      { year := p.year, regionName := p.regionName, ageGroup := p.ageGroup,
        sex := p.sex, da_uid := some d.da_uid,
        projected_Pop := optMul (some p.pop) (prop_DA_in_Region_2021 d) }))

/-- Script 2 lines 278-282, `region_age_sex_year_totals2`: the per-stratum sum
of `Projected_Pop`.  The script computes this under the comment
`Step 5: Validate totals` but never compares it with anything and exports the
output unconditionally. -/
def region_age_sex_year_totals2 (rows : List DARow) (proj : List ProjRow)
    (y : ℤ) (rn : RegionLong) (ag : AgeGroup) (sx : Sex) : ℚ :=
  (((df_combined rows proj).filter (fun c =>
      decide (c.year = y ∧ c.regionName = rn ∧ c.ageGroup = ag ∧ c.sex = sx))).map
    (fun c => (c.projected_Pop).getD 0)).sum

/-- A row of the ON-MARG analysis dataset (`final_df` in
`3 Different Mapping Approaches.py`): a DA with its dominant FSA, its quintile
on one marginalization dimension, and its population. -/
structure MargRow where
  dauid : List Char
  fsa : List Char
  quintile : ℤ
  pop : ℚ
deriving DecidableEq

/-- Approach 1 (lines 187-210): `DA_Count`, the number of DAs of one FSA in
one quintile. -/
def da_count (rows : List MargRow) (f : List Char) (q : ℤ) : ℕ :=
  (rows.filter (fun r => decide (r.fsa = f ∧ r.quintile = q))).length

/-- Approach 1: `Total_DAs`, the number of DAs of one FSA. -/
def total_das (rows : List MargRow) (f : List Char) : ℕ :=
  (rows.filter (fun r => decide (r.fsa = f))).length

/-- Approach 1 line 204: `DA_Proportion = DA_Count / Total_DAs` (count-mode
share). -/
def da_proportion (rows : List MargRow) (f : List Char) (q : ℤ) : Option ℚ :=
  pandasDiv (da_count rows f q : ℚ) (total_das rows f : ℚ)

/-- Approach 1 line 205: `DA_Percentage = DA_Proportion * 100`. -/
def da_percentage (rows : List MargRow) (f : List Char) (q : ℤ) : Option ℚ :=
  (da_proportion rows f q).map (fun x => x * 100)

/-- Approach 2 (lines 235-258): the population of one FSA-quintile cell
(`pop_by_quintile`). -/
def pop_by_quintile (rows : List MargRow) (f : List Char) (q : ℤ) : ℚ :=
  ((rows.filter (fun r => decide (r.fsa = f ∧ r.quintile = q))).map
    (fun r => r.pop)).sum

/-- Approach 2: `Total_Population`, the population of one FSA. -/
def total_population (rows : List MargRow) (f : List Char) : ℚ :=
  ((rows.filter (fun r => decide (r.fsa = f))).map (fun r => r.pop)).sum

/-- Approach 2 line 253:
`Pop_Percentage = (Sum of Pop / Total_Population) * 100` (magnitude-mode
share, scaled to percent). -/
def pop_percentage (rows : List MargRow) (f : List Char) (q : ℤ) : Option ℚ :=
  (pandasDiv (pop_by_quintile rows f q) (total_population rows f)).map
    (fun x => x * 100)

/-- The quintile values occurring in one FSA (the groupby keys of the
FSA-quintile aggregation). -/
def quintilesOf (rows : List MargRow) (f : List Char) : List ℤ :=
  ((rows.filter (fun r => decide (r.fsa = f))).map (fun r => r.quintile)).dedup

/-- A row of approach 3's `prop_df` (lines 283-306): a DA-FSA overlap fragment
with its overlap proportion. -/
structure PropRow where
  dauid : List Char
  fsa : List Char
  quintile : ℤ
  pop : ℚ
  proportion : ℚ
deriving DecidableEq

/-- Approach 3 line 306: `Allocated_Population = Sum of Pop * Proportion`. -/
def allocated_population (r : PropRow) : ℚ :=
  r.pop * r.proportion

/-- Approach 3 line 319: the allocated population of one FSA-quintile cell. -/
def alloc_by_quintile (rows : List PropRow) (f : List Char) (q : ℤ) : ℚ :=
  ((rows.filter (fun r => decide (r.fsa = f ∧ r.quintile = q))).map
    allocated_population).sum

/-- Approach 3 line 323: `Total_Population`, the total allocated population of
one FSA. -/
def total_allocated (rows : List PropRow) (f : List Char) : ℚ :=
  ((rows.filter (fun r => decide (r.fsa = f))).map allocated_population).sum

/-- Approach 3 line 328:
`Pop_Percentage = (Allocated_Population / Total_Population) * 100`. -/
def pop_percentage3 (rows : List PropRow) (f : List Char) (q : ℤ) : Option ℚ :=
  (pandasDiv (alloc_by_quintile rows f q) (total_allocated rows f)).map
    (fun x => x * 100)

/-- The quintile values occurring in one FSA of approach 3's fragment table. -/
def quintilesOf3 (rows : List PropRow) (f : List Char) : List ℤ :=
  ((rows.filter (fun r => decide (r.fsa = f))).map (fun r => r.quintile)).dedup

/-- `str(DA_UID)` `'35180001'`: a pure Durham DA used in concrete examples. -/
def uidA : List Char := ['3', '5', '1', '8', '0', '0', '0', '1']

/-- `str(DA_UID)` `'35180002'`: a second pure Durham DA. -/
def uidA2 : List Char := ['3', '5', '1', '8', '0', '0', '0', '2']

/-- C1's concrete unit table: units A (`base_value` 60) and B (`base_value`
40) in the same stratum (Durham, `0-17`, M). -/
def c1rows : List DARow :=
  [{ da_uid := uidA, ageGroup := AgeGroup.A0to17, sex := Sex.M, pop := 60 },
   { da_uid := uidA2, ageGroup := AgeGroup.A0to17, sex := Sex.M, pop := 40 }]

/-- C1's concrete target-total table: 500 for (Durham, `0-17`, M) in 2030. -/
def c1proj : List ProjRow :=
  [{ year := 2030, regionName := RegionLong.DurhamRHD, sex := Sex.M,
     ageGroup := AgeGroup.A0to17, pop := 500 }]

/-- Unit A of C1's example as the share-table row it becomes. -/
def c1rowA : CRow :=
  { da_uid := uidA, ageGroup := AgeGroup.A0to17, sex := Sex.M,
    region := Region.Durham, pop := 60 }

/-- Unit B of C1's example as the share-table row it becomes. -/
def c1rowB : CRow :=
  { da_uid := uidA2, ageGroup := AgeGroup.A0to17, sex := Sex.M,
    region := Region.Durham, pop := 40 }

/-- C3's concrete counterexample table: a single Durham DA with 2021
population 100 in stratum (Durham, `0-17`, M). -/
def ex3rows : List DARow :=
  [{ da_uid := uidA, ageGroup := AgeGroup.A0to17, sex := Sex.M, pop := 100 }]

/-- C4's concrete counterexample table: one DA whose stratum total is 0. -/
def ex4rows : List DARow :=
  [{ da_uid := uidA, ageGroup := AgeGroup.A0to17, sex := Sex.M, pop := 0 }]

/-- The share-table row C4's example produces. -/
def ex4crow : CRow :=
  { da_uid := uidA, ageGroup := AgeGroup.A0to17, sex := Sex.M,
    region := Region.Durham, pop := 0 }

/-- C5's concrete failing DA table: one Durham DA with 2021 population 50. -/
def ex5rows : List DARow :=
  [{ da_uid := uidA, ageGroup := AgeGroup.A0to17, sex := Sex.M, pop := 50 }]

/-- C5's concrete projection: an authoritative regional total of 200 for
(Durham, `0-17`, M) in 2030. -/
def ex5proj : List ProjRow :=
  [{ year := 2030, regionName := RegionLong.DurhamRHD, sex := Sex.M,
     ageGroup := AgeGroup.A0to17, pop := 200 }]

/-- C6's concrete unit table: one DA in stratum (Durham, `85+`, M). -/
def ex6rows : List DARow :=
  [{ da_uid := uidA, ageGroup := AgeGroup.A85plus, sex := Sex.M, pop := 60 }]

/-- C6's concrete target-total table: it has no entry for (Durham, `85+`, M),
only one for (Durham, `0-17`, M). -/
def ex6proj : List ProjRow :=
  [{ year := 2030, regionName := RegionLong.DurhamRHD, sex := Sex.M,
     ageGroup := AgeGroup.A0to17, pop := 500 }]

/-- The FSA label `'M1J'` used in the ON-MARG examples. -/
def fsaM1J : List Char := ['M', '1', 'J']

/-- Two more DA identifiers for the ON-MARG examples. -/
def uidA3 : List Char := ['3', '5', '1', '8', '0', '0', '0', '3']

/-- A fourth DA identifier for the ON-MARG examples. -/
def uidA4 : List Char := ['3', '5', '1', '8', '0', '0', '0', '4']

/-- C8's counterexample FSA: four DAs with unequal populations
(10, 30, 20, 20) whose quintile groups nevertheless have identical count-mode
and magnitude-mode shares (each group holds half the DAs and half the
population). -/
def ex8rows : List MargRow :=
  [{ dauid := uidA, fsa := fsaM1J, quintile := 1, pop := 10 },
   { dauid := uidA2, fsa := fsaM1J, quintile := 1, pop := 30 },
   { dauid := uidA3, fsa := fsaM1J, quintile := 2, pop := 20 },
   { dauid := uidA4, fsa := fsaM1J, quintile := 2, pop := 20 }]

/-- A small FSA where the quintile means differ (used as C8's witness input):
one DA of population 10 in quintile 1, one of population 30 in quintile 2. -/
def c8rows : List MargRow :=
  [{ dauid := uidA, fsa := fsaM1J, quintile := 1, pop := 10 },
   { dauid := uidA2, fsa := fsaM1J, quintile := 2, pop := 30 }]

/-- Approach-3 fragment rows for C7's witness: one DA split over two
FSA fragments of the same FSA. -/
def c7prop : List PropRow :=
  [{ dauid := uidA, fsa := fsaM1J, quintile := 1, pop := 10, proportion := 0.5 },
   { dauid := uidA, fsa := fsaM1J, quintile := 2, pop := 10, proportion := 0.5 }]

/-- C2's witness unit table: the border DA 35190009 (population 80, split
0.125/0.875) together with a pure Durham DA. -/
def w2rows : List DARow :=
  [{ da_uid := uidB1, ageGroup := AgeGroup.A0to17, sex := Sex.M, pop := 80 },
   { da_uid := uidA, ageGroup := AgeGroup.A0to17, sex := Sex.M, pop := 40 }]

/-- A malformed border-weight table (weights sum to 0.5) for exercising the
split-conservation assert. -/
def badBorder : List (List Char × List (Region × ℚ)) :=
  [(uidA, [(Region.Durham, 0.5)])]

/-- A unit table whose only DA is split by `badBorder`, losing half its
population. -/
def badRows : List DARow :=
  [{ da_uid := uidA, ageGroup := AgeGroup.A0to17, sex := Sex.M, pop := 10 }]

/-- The border DA 35190009 with population 80, for comparing the two scripts'
treatment of border DAs. -/
def b1row80 : DARow :=
  { da_uid := uidB1, ageGroup := AgeGroup.A0to17, sex := Sex.M, pop := 80 }

/-- C10: for every non-negative integer age, `map_single_year_to_custom_group`
returns exactly one of the five labels `0-17`, `18-44`, `45-64`, `65-84`,
`85+` (the ranges are disjoint and exhaustive over the non-negative integers,
and `Unknown` is returned exactly for negative inputs), and the two scripts
define the identical mapping. -/
theorem spec_C10_age_group_mapping : ∀ a : ℤ,
    map_single_year_to_custom_group a = map_single_year_to_custom_group_v2 a
    ∧ (map_single_year_to_custom_group a = AgeGroup.A0to17 ↔ 0 ≤ a ∧ a ≤ 17)
    ∧ (map_single_year_to_custom_group a = AgeGroup.A18to44 ↔ 18 ≤ a ∧ a ≤ 44)
    ∧ (map_single_year_to_custom_group a = AgeGroup.A45to64 ↔ 45 ≤ a ∧ a ≤ 64)
    ∧ (map_single_year_to_custom_group a = AgeGroup.A65to84 ↔ 65 ≤ a ∧ a ≤ 84)
    ∧ (map_single_year_to_custom_group a = AgeGroup.A85plus ↔ 85 ≤ a)
    ∧ (map_single_year_to_custom_group a = AgeGroup.AUnknown ↔ a < 0)
    ∧ (0 ≤ a →
        map_single_year_to_custom_group a = AgeGroup.A0to17
        ∨ map_single_year_to_custom_group a = AgeGroup.A18to44
        ∨ map_single_year_to_custom_group a = AgeGroup.A45to64
        ∨ map_single_year_to_custom_group a = AgeGroup.A65to84
        ∨ map_single_year_to_custom_group a = AgeGroup.A85plus) := by
  intro a
  unfold map_single_year_to_custom_group map_single_year_to_custom_group_v2
  split_ifs with h1 h2 h3 h4 h5 <;> simp_all <;> omega

/-- Witness for C10: the mapping evaluated at the concrete age 16. -/
theorem spec_C10_witness :
    map_single_year_to_custom_group 16 = map_single_year_to_custom_group_v2 16
    ∧ (map_single_year_to_custom_group 16 = AgeGroup.A0to17 ↔ 0 ≤ (16 : ℤ) ∧ (16 : ℤ) ≤ 17)
    ∧ (0 ≤ (16 : ℤ) →
        map_single_year_to_custom_group 16 = AgeGroup.A0to17
        ∨ map_single_year_to_custom_group 16 = AgeGroup.A18to44
        ∨ map_single_year_to_custom_group 16 = AgeGroup.A45to64
        ∨ map_single_year_to_custom_group 16 = AgeGroup.A65to84
        ∨ map_single_year_to_custom_group 16 = AgeGroup.A85plus) :=
  ⟨(spec_C10_age_group_mapping 16).1, (spec_C10_age_group_mapping 16).2.1,
   (spec_C10_age_group_mapping 16).2.2.2.2.2.2.2⟩

/-- Helper: a successful association-list lookup is a membership. -/
lemma lookup_mem {α β : Type} [BEq α] [LawfulBEq α] :
    ∀ {l : List (α × β)} {a : α} {b : β}, l.lookup a = some b → (a, b) ∈ l := by
  intro l
  induction l with
  | nil => intro a b h; simp [List.lookup] at h
  | cons p es ih =>
    intro a b h
    obtain ⟨k, v⟩ := p
    rw [List.lookup] at h
    cases hak : a == k with
    | false =>
      rw [hak] at h
      exact List.mem_cons_of_mem _ (ih h)
    | true =>
      simp only [hak] at h
      have hk : a = k := eq_of_beq hak
      subst hk
      cases h
      exact List.mem_cons_self _ _

/-- Helper: `popOfDAClean` is additive over list append. -/
lemma popOfDAClean_append (a b : List CRow) (u : List Char) :
    popOfDAClean (a ++ b) u = popOfDAClean a u + popOfDAClean b u := by
  simp [popOfDAClean, List.filter_append]

/-- Helper: one-step unfolding of `popOfDA`. -/
lemma popOfDA_cons (r : DARow) (rs : List DARow) (u : List Char) :
    popOfDA (r :: rs) u = (if r.da_uid = u then r.pop else 0) + popOfDA rs u := by
  simp only [popOfDA, List.filter_cons]
  split_ifs with h h2 h3 <;> simp_all

/-- Helper: one-step unfolding of `popOfDAClean`. -/
lemma popOfDAClean_cons (c : CRow) (l : List CRow) (u : List Char) :
    popOfDAClean (c :: l) u = (if c.da_uid = u then c.pop else 0) + popOfDAClean l u := by
  simp only [popOfDAClean, List.filter_cons]
  split_ifs with h h2 h3 <;> simp_all

/-- Helper: splitting preserves each DA's population sum when the weights of
every border entry sum to 1. -/
lemma clean_preserves_pop (border : List (List Char × List (Region × ℚ)))
    (hw : ∀ p ∈ border, ((p.2.map (fun w => w.2)).sum = (1 : ℚ))) :
    ∀ (rows : List DARow) (u : List Char),
      popOfDAClean (df_da_clean border rows) u = popOfDA rows u := by
  intro rows
  induction rows with
  | nil =>
    intro u
    simp [df_da_clean, df_da_tagged, df_border_split, popOfDAClean, popOfDA]
  | cons r rs ih =>
    intro u
    rw [popOfDA_cons, ← ih u]
    rcases hlk : border.lookup r.da_uid with _ | ws
    · -- not a border DA: the tagged row passes through unchanged
      have hnb : ¬ rowRegion border r = Region.Border := by
        simp only [rowRegion, assign_region, hlk, Option.isSome_none]
        split_ifs <;> simp_all
      have h1 : df_da_clean border (r :: rs)
          = ({ da_uid := r.da_uid, ageGroup := r.ageGroup, sex := r.sex,
               region := rowRegion border r, pop := r.pop } : CRow)
            :: df_da_clean border rs := by
        simp [df_da_clean, df_da_tagged, df_border_split, List.filter_cons, hnb]
      rw [h1, popOfDAClean_cons]
    · -- a border DA: replaced by its weighted fragments
      have hb : rowRegion border r = Region.Border := by
        simp [rowRegion, assign_region, hlk]
      have h1 : df_da_clean border (r :: rs)
          = ((df_da_tagged border rs).filter
               (fun c => decide (¬ c.region = Region.Border)))
            ++ (ws.map (fun rw =>
                  ({ da_uid := r.da_uid, ageGroup := r.ageGroup, sex := r.sex,
                     region := rw.1, pop := r.pop * rw.2 } : CRow))
                ++ df_border_split border rs) := by
        simp [df_da_clean, df_da_tagged, df_border_split, List.filter_cons, hb, hlk]
      have h3 : ((ws.map (fun w => w.2)).sum = (1 : ℚ)) :=
        hw (r.da_uid, ws) (lookup_mem hlk)
      have h2 : popOfDAClean
          (ws.map (fun rw =>
            ({ da_uid := r.da_uid, ageGroup := r.ageGroup, sex := r.sex,
               region := rw.1, pop := r.pop * rw.2 } : CRow))) u
          = if r.da_uid = u then r.pop else 0 := by
        by_cases hu : r.da_uid = u
        · subst hu
          have hfil : (ws.map (fun rw =>
              ({ da_uid := r.da_uid, ageGroup := r.ageGroup, sex := r.sex,
                 region := rw.1, pop := r.pop * rw.2 } : CRow))).filter
                (fun c => decide (c.da_uid = r.da_uid))
              = ws.map (fun rw =>
                  ({ da_uid := r.da_uid, ageGroup := r.ageGroup, sex := r.sex,
                     region := rw.1, pop := r.pop * rw.2 } : CRow)) := by
            apply List.filter_eq_self.mpr
            intro c hc
            simp only [List.mem_map] at hc
            obtain ⟨rw, _, hrw⟩ := hc
            subst hrw
            simp
          rw [popOfDAClean, hfil, if_pos rfl, List.map_map]
          have hcomp : ((fun c : CRow => c.pop) ∘ fun rw : Region × ℚ =>
              ({ da_uid := r.da_uid, ageGroup := r.ageGroup, sex := r.sex,
                 region := rw.1, pop := r.pop * rw.2 } : CRow))
              = fun rw : Region × ℚ => r.pop * rw.2 := by
            funext rw
            rfl
          rw [hcomp, List.sum_map_mul_left ws (fun rw => rw.2) r.pop, h3, mul_one]
        · have hfil : (ws.map (fun rw =>
              ({ da_uid := r.da_uid, ageGroup := r.ageGroup, sex := r.sex,
                 region := rw.1, pop := r.pop * rw.2 } : CRow))).filter
                (fun c => decide (c.da_uid = u)) = [] := by
            apply List.filter_eq_nil_iff.mpr
            intro c hc
            simp only [List.mem_map] at hc
            obtain ⟨rw, _, hrw⟩ := hc
            subst hrw
            simp [hu]
          rw [popOfDAClean, hfil, if_neg hu]
          simp
      rw [h1, popOfDAClean_append, popOfDAClean_append, h2]
      simp only [df_da_clean, popOfDAClean_append]
      ring

/-- C2: after the Split-Unit Resolver expands every border DA into one
weighted fragment per membership (fragment `Pop` = original `Pop` × weight),
the per-DA population sums are unchanged — exactly, hence within 1e-5 — for
every weight table whose entries each sum to 1; and a violation of the 1e-5
post-condition makes the `assert` at line 180 halt the run (an
`Except.error`), it is not reported as a warning. -/
theorem spec_C2_split_conservation :
    (∀ (border : List (List Char × List (Region × ℚ))) (rows : List DARow),
      (∀ p ∈ border, ((p.2.map (fun w => w.2)).sum = (1 : ℚ))) →
      pop_diff border rows = 0)
    ∧ (∀ (border : List (List Char × List (Region × ℚ)))
        (rows : List DARow) (proj : List ProjRow),
        (1 : ℚ) / 100000 ≤ pop_diff border rows →
        script1_run border rows proj = Except.error RunError.splitError) := by
  constructor
  · intro border rows hw
    have hz : ∀ u ∈ (rows.map (fun r => r.da_uid)).dedup,
        |popOfDA rows u - popOfDAClean (df_da_clean border rows) u| = 0 := by
      intro u _
      rw [clean_preserves_pop border hw rows u, sub_self, abs_zero]
    rw [pop_diff, List.map_congr_left hz]
    simp
  · intro border rows proj h
    rw [script1_run, if_neg (not_lt.mpr h)]

/-- Witness for C2: the split of the repository's own border table
`DA_BORDER_DAs` (weights 0.125/0.875 and 0.028/0.972) conserves the per-DA
sums of a concrete table containing border DA 35190009; and a malformed
weight table that loses half a DA's population makes the run abort with the
split assert. -/
theorem spec_C2_witness :
    pop_diff DA_BORDER_DAs w2rows = 0
    ∧ script1_run badBorder badRows [] = Except.error RunError.splitError := by
  constructor
  · refine spec_C2_split_conservation.1 DA_BORDER_DAs w2rows ?_
    intro p hp
    simp only [DA_BORDER_DAs, List.mem_cons, List.mem_singleton] at hp
    rcases hp with h | h | h
    · subst h; norm_num
    · subst h; norm_num
    · cases h
  · refine spec_C2_split_conservation.2 badBorder badRows [] ?_
    have h1 : (badBorder.lookup uidA).isSome = true := by decide
    have h2 : pop_diff badBorder badRows = 5 := by
      simp [pop_diff, badRows, badBorder, popOfDA, popOfDAClean, df_da_clean,
        df_da_tagged, df_border_split, rowRegion, assign_region, List.lookup,
        List.filter, List.dedup]
      norm_num
    rw [h2]
    norm_num

/-- Helper: dividing each mapped value by a constant divides the sum. -/
lemma sum_map_div {α : Type} (l : List α) (f : α → ℚ) (c : ℚ) :
    (l.map fun x => f x / c).sum = (l.map f).sum / c := by
  simp only [div_eq_mul_inv]
  exact List.sum_map_mul_right l f c⁻¹

/-- Helper: over a stratum whose denominator is nonzero, script 1's shares
sum to exactly 1. -/
lemma shareSum1_eq_one (border : List (List Char × List (Region × ℚ)))
    (rows : List DARow) (reg : Region) (ag : AgeGroup) (sx : Sex)
    (hT : regionPop (df_da_clean border rows) reg ag sx ≠ 0) :
    shareSum1 border rows reg ag sx = 1 := by
  have hcong : ∀ r ∈ (df_da_clean border rows).filter
      (fun r => decide (r.region = reg ∧ r.ageGroup = ag ∧ r.sex = sx)),
      (DA_Share border rows r).getD 0
        = r.pop / regionPop (df_da_clean border rows) reg ag sx := by
    intro r hr
    rw [List.mem_filter] at hr
    obtain ⟨hreg, hag, hsx⟩ := of_decide_eq_true hr.2
    rw [DA_Share, hreg, hag, hsx, pandasDiv, if_neg hT]
    rfl
  rw [shareSum1, List.map_congr_left hcong, sum_map_div]
  rw [show ((((df_da_clean border rows).filter
      (fun r => decide (r.region = reg ∧ r.ageGroup = ag ∧ r.sex = sx))).map
      (fun r => r.pop)).sum) = regionPop (df_da_clean border rows) reg ag sx from rfl]
  exact div_self hT

/-- Helper: over a stratum whose census denominator is present and nonzero,
script 2's proportions sum to the stratum's own DA sum divided by the census
figure (not necessarily 1). -/
lemma shareSum2_eq_ratio (rows : List DARow) (reg : Region) (ag : AgeGroup)
    (sx : Sex) (t : ℚ) (ht : trueRegionPop reg ag sx = some t) (htz : t ≠ 0) :
    shareSum2 rows reg ag sx = stratumPop2 rows reg ag sx / t := by
  have hcong : ∀ r ∈ (df_da2 rows).filter
      (fun r => decide (r.region = reg ∧ r.ageGroup = ag ∧ r.sex = sx)),
      (prop_DA_in_Region_2021 r).getD 0 = r.pop / t := by
    intro r hr
    rw [List.mem_filter] at hr
    obtain ⟨hreg, hag, hsx⟩ := of_decide_eq_true hr.2
    simp only [prop_DA_in_Region_2021, hreg, hag, hsx, ht, pandasDiv,
      if_neg htz, Option.getD_some]
  rw [shareSum2, List.map_congr_left hcong, sum_map_div, stratumPop2]

/-- Helper: the C1 example table passes through the Split-Unit Resolver
unchanged (both DAs are pure Durham DAs). -/
lemma clean_c1rows_eval : df_da_clean DA_BORDER_DAs c1rows = [c1rowA, c1rowB] := by
  have h1 : (DA_BORDER_DAs.lookup uidA).isSome = false := by decide
  have h2 : (DA_BORDER_DAs.lookup uidA2).isSome = false := by decide
  have t1 : uidA.take 4 = durhamCode := by decide
  have t2 : uidA2.take 4 = durhamCode := by decide
  have n1 : ¬ uidA.take 4 = yorkCode := by decide
  have n2 : ¬ uidA2.take 4 = yorkCode := by decide
  have dy : ¬ durhamCode = yorkCode := by decide
  simp [df_da_clean, df_da_tagged, df_border_split, c1rows, rowRegion,
    assign_region, h1, h2, t1, t2, n1, n2, dy, c1rowA, c1rowB]

/-- Helper: the C1 example stratum total is 100. -/
lemma regionPop_c1_eval :
    regionPop (df_da_clean DA_BORDER_DAs c1rows) Region.Durham AgeGroup.A0to17 Sex.M = 100 := by
  rw [clean_c1rows_eval]
  simp [regionPop, c1rowA, c1rowB]
  norm_num

/-- C3 (amended): on script 1's path, whose denominator is the stratum's own
DA sum, the shares of every stratum with a nonzero total sum to exactly 1
(hence within 1e-3); on script 2's path the denominator is the fixed census
figure, so the shares sum to `StratumTotal / census`, which is within 1e-3 of
1 only when the stratum's DA sum matches the census figure that closely. -/
theorem spec_C3_amended :
    (∀ (border : List (List Char × List (Region × ℚ))) (rows : List DARow)
        (reg : Region) (ag : AgeGroup) (sx : Sex),
      regionPop (df_da_clean border rows) reg ag sx ≠ 0 →
      shareSum1 border rows reg ag sx = 1)
    ∧ (∀ (rows : List DARow) (reg : Region) (ag : AgeGroup) (sx : Sex) (t : ℚ),
        trueRegionPop reg ag sx = some t → t ≠ 0 →
        shareSum2 rows reg ag sx = stratumPop2 rows reg ag sx / t) :=
  ⟨fun border rows reg ag sx hT => shareSum1_eq_one border rows reg ag sx hT,
   fun rows reg ag sx t ht htz => shareSum2_eq_ratio rows reg ag sx t ht htz⟩

/-- Counterexample for C3 as stated: a stratum (Durham, `0-17`, M) holding a
single DA of population 100 has StratumTotal 100 > 0, yet script 2's shares
sum to 100/64230 = 10/6423 ≈ 0.00156, far outside 1e-3 of 1, because the
denominator on that path is the fixed census figure 64230, not the stratum
total. -/
theorem spec_C3_cex :
    stratumPop2 ex3rows Region.Durham AgeGroup.A0to17 Sex.M = 100
    ∧ shareSum2 ex3rows Region.Durham AgeGroup.A0to17 Sex.M = 10 / 6423
    ∧ ¬ |shareSum2 ex3rows Region.Durham AgeGroup.A0to17 Sex.M - 1| ≤ 1 / 1000 := by
  have hpre : durhamCode <+: uidA := by decide
  have e1 : stratumPop2 ex3rows Region.Durham AgeGroup.A0to17 Sex.M = 100 := by
    simp [stratumPop2, df_da2, ex3rows, assign_region_by_da, hpre]
  have e2 : shareSum2 ex3rows Region.Durham AgeGroup.A0to17 Sex.M = 10 / 6423 := by
    simp [shareSum2, df_da2, ex3rows, assign_region_by_da, hpre,
      prop_DA_in_Region_2021, trueRegionPop, region_age_sex_2021, pandasDiv]
    norm_num
  refine ⟨e1, e2, ?_⟩
  rw [e2, abs_sub_comm, abs_of_nonneg (by norm_num)]
  norm_num

/-- Witness for C3's amended theorem: on script 1's path the two-unit stratum
of `c1rows` has shares summing to exactly 1, and on script 2's path the
stratum of `ex3rows` sums to its DA total divided by the census figure. -/
theorem spec_C3_witness :
    shareSum1 DA_BORDER_DAs c1rows Region.Durham AgeGroup.A0to17 Sex.M = 1
    ∧ shareSum2 ex3rows Region.Durham AgeGroup.A0to17 Sex.M
        = stratumPop2 ex3rows Region.Durham AgeGroup.A0to17 Sex.M / 64230 := by
  constructor
  · refine spec_C3_amended.1 DA_BORDER_DAs c1rows Region.Durham AgeGroup.A0to17 Sex.M ?_
    rw [regionPop_c1_eval]
    norm_num
  · refine spec_C3_amended.2 ex3rows Region.Durham AgeGroup.A0to17 Sex.M 64230 ?_ (by norm_num)
    simp [trueRegionPop, region_age_sex_2021]

/-- Helper: the allocated value of C1's unit A is 300. -/
lemma allocFor_c1rowA_eval :
    allocFor DA_BORDER_DAs c1rows c1proj 2030 c1rowA = some 300 := by
  have eT := regionPop_c1_eval
  simp only [allocFor, DA_Share, c1rowA, eT, pandasDiv, lookupTarget,
    region_map_proj, optMul, c1proj]
  norm_num [List.filter]

/-- Helper: the allocated value of C1's unit B is 200. -/
lemma allocFor_c1rowB_eval :
    allocFor DA_BORDER_DAs c1rows c1proj 2030 c1rowB = some 200 := by
  have eT := regionPop_c1_eval
  simp only [allocFor, DA_Share, c1rowB, eT, pandasDiv, lookupTarget,
    region_map_proj, optMul, c1proj]
  norm_num [List.filter]

/-- Helper: the full output of script 1's allocator on C1's example. -/
lemma df_projected_c1_eval :
    df_projected DA_BORDER_DAs c1rows c1proj
      = [{ da_uid := uidA, sex := Sex.M, ageGroup := AgeGroup.A0to17,
           region := Region.Durham, year := 2030, projected_Pop := some 300 },
         { da_uid := uidA2, sex := Sex.M, ageGroup := AgeGroup.A0to17,
           region := Region.Durham, year := 2030, projected_Pop := some 200 }] := by
  have hy : (c1proj.map (fun p => p.year)).dedup = [2030] := by
    simp [c1proj, List.dedup_cons_of_not_mem]
  rw [df_projected, clean_c1rows_eval, hy]
  simp only [List.flatMap_cons, List.flatMap_nil, List.map_cons, List.map_nil,
    List.append_nil, allocFor_c1rowA_eval, allocFor_c1rowB_eval]
  simp [c1rowA, c1rowB]

/-- C1: for every stratum present in both the share table and the target
totals (nonzero stratum total, matching target row), each unit's allocated
value is exactly its share (`Pop / RegionPop`) times the stratum's target
total; and on the concrete two-unit example (A = 60, B = 40, StratumTotal
100, target 500 for the stratum in 2030) the Allocator returns 300 for A and
200 for B, and the Conservation Validator's discrepancy for that stratum
is 0. -/
theorem spec_C1_allocated_eq_share_times_target :
    (∀ (border : List (List Char × List (Region × ℚ))) (rows : List DARow)
        (proj : List ProjRow) (y : ℤ) (r : CRow) (t : ℚ),
      regionPop (df_da_clean border rows) r.region r.ageGroup r.sex ≠ 0 →
      lookupTarget proj y (region_map_proj r.region) r.sex r.ageGroup = some t →
      allocFor border rows proj y r
        = some ((r.pop / regionPop (df_da_clean border rows) r.region r.ageGroup r.sex) * t))
    ∧ df_projected DA_BORDER_DAs c1rows c1proj
        = [{ da_uid := uidA, sex := Sex.M, ageGroup := AgeGroup.A0to17,
             region := Region.Durham, year := 2030, projected_Pop := some 300 },
           { da_uid := uidA2, sex := Sex.M, ageGroup := AgeGroup.A0to17,
             region := Region.Durham, year := 2030, projected_Pop := some 200 }]
    ∧ proj_check_diff (df_projected DA_BORDER_DAs c1rows c1proj) c1proj 2030
        RegionLong.DurhamRHD Sex.M AgeGroup.A0to17 = some 0 := by
  refine ⟨?_, df_projected_c1_eval, ?_⟩
  · intro border rows proj y r t hT ht
    rw [allocFor, DA_Share, pandasDiv, if_neg hT, ht]
    rfl
  · have hlt : lookupTarget c1proj 2030 (some RegionLong.DurhamRHD) Sex.M AgeGroup.A0to17
        = some 500 := by
      simp [lookupTarget, c1proj, List.filter]
    rw [proj_check_diff, hlt, df_projected_c1_eval]
    simp [allocSum, region_map_proj, List.filter]
    norm_num

/-- Witness for C1: the general share-times-target law applied to C1's
concrete unit A (share 60/100, target 500). -/
theorem spec_C1_witness :
    allocFor DA_BORDER_DAs c1rows c1proj 2030 c1rowA
      = some ((c1rowA.pop /
          regionPop (df_da_clean DA_BORDER_DAs c1rows) c1rowA.region c1rowA.ageGroup c1rowA.sex)
        * 500) := by
  refine spec_C1_allocated_eq_share_times_target.1 DA_BORDER_DAs c1rows c1proj 2030 c1rowA 500 ?_ ?_
  · have : regionPop (df_da_clean DA_BORDER_DAs c1rows) c1rowA.region c1rowA.ageGroup c1rowA.sex
        = 100 := by
      simp only [c1rowA]
      exact regionPop_c1_eval
    rw [this]
    norm_num
  · simp [lookupTarget, region_map_proj, c1rowA, c1proj, List.filter]

/-- Helper: the C4 example table passes through the Split-Unit Resolver
unchanged. -/
lemma clean_ex4_eval : df_da_clean DA_BORDER_DAs ex4rows = [ex4crow] := by
  have h1 : (DA_BORDER_DAs.lookup uidA).isSome = false := by decide
  have t1 : uidA.take 4 = durhamCode := by decide
  have n1 : ¬ uidA.take 4 = yorkCode := by decide
  have dy : ¬ durhamCode = yorkCode := by decide
  simp [df_da_clean, df_da_tagged, df_border_split, ex4rows, rowRegion,
    assign_region, h1, t1, n1, dy, ex4crow]

/-- C4 (amended): for a stratum whose total is 0, script 1's share division
produces `NaN` (modelled `none`) for every row of the stratum — not the
`Share = 0` the claim requires — and no stratum is ever flagged as empty; no
division exception is raised (the share computation is total). -/
theorem spec_C4_zero_stratum_nan :
    ∀ (border : List (List Char × List (Region × ℚ))) (rows : List DARow) (r : CRow),
      regionPop (df_da_clean border rows) r.region r.ageGroup r.sex = 0 →
      DA_Share border rows r = none := by
  intro border rows r h
  rw [DA_Share, h, pandasDiv, if_pos rfl]

/-- Counterexample for C4 as stated: the stratum (Durham, `0-17`, M) of
`ex4rows` has StratumTotal 0, and the engine emits a `NaN` share (`none`),
not `Share = 0` (`some 0`); nothing in the pipeline flags the stratum. -/
theorem spec_C4_cex :
    df_da_clean DA_BORDER_DAs ex4rows = [ex4crow]
    ∧ regionPop (df_da_clean DA_BORDER_DAs ex4rows) Region.Durham AgeGroup.A0to17 Sex.M = 0
    ∧ DA_Share DA_BORDER_DAs ex4rows ex4crow = none
    ∧ ¬ DA_Share DA_BORDER_DAs ex4rows ex4crow = some 0 := by
  have e0 : regionPop (df_da_clean DA_BORDER_DAs ex4rows) Region.Durham AgeGroup.A0to17 Sex.M
      = 0 := by
    rw [clean_ex4_eval]
    simp [regionPop, ex4crow]
  have e1 : DA_Share DA_BORDER_DAs ex4rows ex4crow = none := by
    rw [DA_Share]
    rw [show ex4crow.region = Region.Durham from rfl,
      show ex4crow.ageGroup = AgeGroup.A0to17 from rfl,
      show ex4crow.sex = Sex.M from rfl, e0, pandasDiv, if_pos rfl]
  refine ⟨clean_ex4_eval, e0, e1, ?_⟩
  rw [e1]
  simp

/-- Witness for C4's amended theorem: the zero-total stratum of `ex4rows`
gets a `NaN` share. -/
theorem spec_C4_witness :
    DA_Share DA_BORDER_DAs ex4rows ex4crow = none := by
  refine spec_C4_zero_stratum_nan DA_BORDER_DAs ex4rows ex4crow ?_
  rw [show ex4crow.region = Region.Durham from rfl,
    show ex4crow.ageGroup = AgeGroup.A0to17 from rfl,
    show ex4crow.sex = Sex.M from rfl, clean_ex4_eval]
  simp [regionPop, ex4crow]

/-- Helper: multiplying by a missing (`NaN`) factor gives a missing value. -/
lemma optMul_none_right (x : Option ℚ) : optMul x none = none := by
  cases x <;> rfl

/-- Helper: the C6 example table passes through the Split-Unit Resolver
unchanged. -/
lemma clean_ex6_eval :
    df_da_clean DA_BORDER_DAs ex6rows
      = [{ da_uid := uidA, ageGroup := AgeGroup.A85plus, sex := Sex.M,
           region := Region.Durham, pop := 60 }] := by
  have h1 : (DA_BORDER_DAs.lookup uidA).isSome = false := by decide
  have t1 : uidA.take 4 = durhamCode := by decide
  have n1 : ¬ uidA.take 4 = yorkCode := by decide
  have dy : ¬ durhamCode = yorkCode := by decide
  simp [df_da_clean, df_da_tagged, df_border_split, ex6rows, rowRegion,
    assign_region, h1, t1, n1, dy]

/-- C6 (amended): a share row whose stratum has no entry in the target totals
is not skipped — for every projection year it produces an output row whose
allocated value is `NaN` (`none`, the share multiplied by the missing total);
the row is silently included in `df_projected` (and hence in the exported
table), is not coerced to zero, and no report lists it. -/
theorem spec_C6_missing_target_rows_included :
    ∀ (border : List (List Char × List (Region × ℚ))) (rows : List DARow)
      (proj : List ProjRow) (y : ℤ) (r : CRow),
      y ∈ (proj.map (fun p => p.year)).dedup →
      r ∈ df_da_clean border rows →
      lookupTarget proj y (region_map_proj r.region) r.sex r.ageGroup = none →
      ({ da_uid := r.da_uid, sex := r.sex, ageGroup := r.ageGroup,
         region := r.region, year := y, projected_Pop := none } : MRow)
        ∈ df_projected border rows proj := by
  intro border rows proj y r hy hr hl
  have hnone : allocFor border rows proj y r = none := by
    rw [allocFor, hl, optMul_none_right]
  rw [df_projected]
  refine List.mem_flatMap.mpr ⟨y, hy, ?_⟩
  refine List.mem_map.mpr ⟨r, hr, ?_⟩
  rw [hnone]

/-- Counterexample for C6 as stated: the stratum (Durham, `85+`, M) exists in
the share table of `ex6rows` but has no entry in the target totals `ex6proj`;
its row is nevertheless present in the output with a `NaN` allocated value
(so allocation was not skipped and the row was silently included), and the
validation report's difference for that stratum is `NaN` (`none`), so no
discrepancy entry lists it. -/
theorem spec_C6_cex :
    df_projected DA_BORDER_DAs ex6rows ex6proj
      = [{ da_uid := uidA, sex := Sex.M, ageGroup := AgeGroup.A85plus,
           region := Region.Durham, year := 2030, projected_Pop := none }]
    ∧ proj_check_diff (df_projected DA_BORDER_DAs ex6rows ex6proj) ex6proj 2030
        RegionLong.DurhamRHD Sex.M AgeGroup.A85plus = none := by
  have hy : (ex6proj.map (fun p => p.year)).dedup = [2030] := by
    simp [ex6proj, List.dedup_cons_of_not_mem]
  have hl : lookupTarget ex6proj 2030 (some RegionLong.DurhamRHD) Sex.M AgeGroup.A85plus
      = none := by
    simp [lookupTarget, ex6proj, List.filter]
  have ha : allocFor DA_BORDER_DAs ex6rows ex6proj 2030
      ({ da_uid := uidA, ageGroup := AgeGroup.A85plus, sex := Sex.M,
         region := Region.Durham, pop := 60 } : CRow) = none := by
    simp only [allocFor, region_map_proj]
    rw [hl, optMul_none_right]
  have hout : df_projected DA_BORDER_DAs ex6rows ex6proj
      = [{ da_uid := uidA, sex := Sex.M, ageGroup := AgeGroup.A85plus,
           region := Region.Durham, year := 2030, projected_Pop := none }] := by
    rw [df_projected, clean_ex6_eval, hy]
    simp only [List.flatMap_cons, List.flatMap_nil, List.map_cons, List.map_nil,
      List.append_nil, ha]
  refine ⟨hout, ?_⟩
  rw [proj_check_diff, hl]

/-- Witness for C6's amended theorem: the (Durham, `85+`, M) row of `ex6rows`
appears in the output with a `NaN` allocated value. -/
theorem spec_C6_witness :
    ({ da_uid := uidA, sex := Sex.M, ageGroup := AgeGroup.A85plus,
       region := Region.Durham, year := 2030, projected_Pop := none } : MRow)
      ∈ df_projected DA_BORDER_DAs ex6rows ex6proj := by
  refine spec_C6_missing_target_rows_included DA_BORDER_DAs ex6rows ex6proj 2030
    ({ da_uid := uidA, ageGroup := AgeGroup.A85plus, sex := Sex.M,
       region := Region.Durham, pop := 60 } : CRow) ?_ ?_ ?_
  · simp [ex6proj, List.dedup_cons_of_not_mem]
  · rw [clean_ex6_eval]
    exact List.mem_singleton.mpr rfl
  · simp [lookupTarget, ex6proj, region_map_proj, List.filter]

/-- C5 (code evaluation at the failing input): on script 2's temporal
disaggregation path, the failing input `ex5rows`/`ex5proj` (one Durham DA
with 2021 population 50, authoritative regional total 200 for its stratum in
2030) allocates a stratum total of 1000/6423 ≈ 0.156 — a conservation
discrepancy of ≈ 199.84, far beyond the 1e-2 tolerance — yet the pipeline
still produces its export row: `region_age_sex_year_totals2` is computed
under the comment `Step 5: Validate totals` but is never compared with the
regional target and nothing aborts the pass.  (Script 1's corresponding check
is the hard `assert max_diff < 1e-2` modelled in `script1_run`.) -/
theorem spec_C5_silent_discrepancy :
    region_age_sex_year_totals2 ex5rows ex5proj 2030 RegionLong.DurhamRHD
        AgeGroup.A0to17 Sex.M = 1000 / 6423
    ∧ ¬ |region_age_sex_year_totals2 ex5rows ex5proj 2030 RegionLong.DurhamRHD
          AgeGroup.A0to17 Sex.M - 200| ≤ 1 / 100
    ∧ (df_combined ex5rows ex5proj).length = 1 := by
  have hpre : durhamCode <+: uidA := by decide
  have hcomb : df_combined ex5rows ex5proj
      = [{ year := 2030, regionName := RegionLong.DurhamRHD,
           ageGroup := AgeGroup.A0to17, sex := Sex.M, da_uid := some uidA,
           projected_Pop := some (200 * (50 / 64230)) }] := by
    simp [df_combined, ex5rows, ex5proj, df_da2, assign_region_by_da, hpre,
      region_name_map, List.filter, prop_DA_in_Region_2021, trueRegionPop,
      region_age_sex_2021, pandasDiv, optMul]
  have e1 : region_age_sex_year_totals2 ex5rows ex5proj 2030 RegionLong.DurhamRHD
      AgeGroup.A0to17 Sex.M = 1000 / 6423 := by
    rw [region_age_sex_year_totals2, hcomb]
    simp [List.filter]
    norm_num
  refine ⟨e1, ?_, by rw [hcomb]; rfl⟩
  rw [e1, abs_sub_comm, abs_of_nonneg (by norm_num)]
  norm_num

/-- Helper: summing an indicator of one key over a duplicate-free key list
containing it yields the value once. -/
lemma sum_ite_eq_key {κ : Type} [DecidableEq κ] (v : ℚ) :
    ∀ (K : List κ) (k : κ), K.Nodup → k ∈ K →
      (K.map (fun x => if k = x then v else 0)).sum = v := by
  intro K
  induction K with
  | nil => intro k _ hk; cases hk
  | cons a L ih =>
    intro k hnd hk
    rw [List.map_cons, List.sum_cons]
    rcases List.mem_cons.mp hk with h | h
    · subst h
      rw [if_pos rfl]
      have hz : ∀ x ∈ L, (if k = x then v else 0) = 0 := by
        intro x hx
        have hne : ¬ k = x := by
          intro he
          subst he
          exact (List.nodup_cons.mp hnd).1 hx
        rw [if_neg hne]
      rw [List.map_congr_left hz]
      simp
    · have hne : ¬ k = a := by
        intro he
        subst he
        exact (List.nodup_cons.mp hnd).1 h
      rw [if_neg hne, ih k (List.nodup_cons.mp hnd).2 h]
      ring

/-- Helper: a sum split over the fibers of a key function (over any
duplicate-free key list covering the data) equals the plain sum. -/
lemma sum_filter_partition {α κ : Type} [DecidableEq κ] (key : α → κ) (val : α → ℚ) :
    ∀ (l : List α) (K : List κ), K.Nodup → (∀ a ∈ l, key a ∈ K) →
      (K.map (fun k => ((l.filter (fun a => decide (key a = k))).map val).sum)).sum
        = (l.map val).sum := by
  intro l
  induction l with
  | nil =>
    intro K _ _
    simp
  | cons a l ih =>
    intro K hnd hcov
    have hstep : ∀ k ∈ K,
        (((a :: l).filter (fun x => decide (key x = k))).map val).sum
          = (if key a = k then val a else 0)
            + ((l.filter (fun x => decide (key x = k))).map val).sum := by
      intro k _
      rw [List.filter_cons]
      by_cases h : key a = k
      · simp [h]
      · simp [h]
    rw [List.map_congr_left hstep, List.sum_map_add]
    have hone : (K.map (fun k => if key a = k then val a else 0)).sum = val a :=
      sum_ite_eq_key (val a) K (key a) hnd (hcov a (List.mem_cons_self a l))
    rw [hone, ih K hnd (fun x hx => hcov x (List.mem_cons_of_mem a hx))]
    simp

/-- Helper: the FSA-quintile cell filter is the quintile filter applied after
the FSA filter. -/
lemma pop_by_quintile_eq_fiber (rows : List MargRow) (f : List Char) (q : ℤ) :
    pop_by_quintile rows f q
      = (((rows.filter (fun r => decide (r.fsa = f))).filter
          (fun r => decide (r.quintile = q))).map (fun r => r.pop)).sum := by
  rw [pop_by_quintile, List.filter_filter]
  have he : ∀ x ∈ rows,
      (decide (x.fsa = f ∧ x.quintile = q))
        = (decide (x.quintile = q) && decide (x.fsa = f)) := by
    intro x _
    simp [Bool.and_comm]
  rw [List.filter_congr he]

/-- Helper: approach 3's FSA-quintile cell filter, fibered likewise. -/
lemma alloc_by_quintile_eq_fiber (rows : List PropRow) (f : List Char) (q : ℤ) :
    alloc_by_quintile rows f q
      = (((rows.filter (fun r => decide (r.fsa = f))).filter
          (fun r => decide (r.quintile = q))).map allocated_population).sum := by
  rw [alloc_by_quintile, List.filter_filter]
  have he : ∀ x ∈ rows,
      (decide (x.fsa = f ∧ x.quintile = q))
        = (decide (x.quintile = q) && decide (x.fsa = f)) := by
    intro x _
    simp [Bool.and_comm]
  rw [List.filter_congr he]

/-- Helper: the per-quintile population sums of one FSA add up to the FSA
total exactly. -/
lemma sum_pop_by_quintile (rows : List MargRow) (f : List Char) :
    ((quintilesOf rows f).map (fun q => pop_by_quintile rows f q)).sum
      = total_population rows f := by
  have hcong : ∀ q ∈ quintilesOf rows f,
      pop_by_quintile rows f q
        = (((rows.filter (fun r => decide (r.fsa = f))).filter
            (fun r => decide (r.quintile = q))).map (fun r => r.pop)).sum :=
    fun q _ => pop_by_quintile_eq_fiber rows f q
  rw [List.map_congr_left hcong, total_population]
  exact sum_filter_partition (fun r => r.quintile) (fun r => r.pop)
    (rows.filter (fun r => decide (r.fsa = f))) (quintilesOf rows f)
    (List.nodup_dedup _)
    (fun a ha => by
      rw [quintilesOf]
      exact List.mem_dedup.mpr (List.mem_map.mpr ⟨a, ha, rfl⟩))

/-- Helper: the per-quintile allocated sums of one FSA add up to the FSA's
allocated total exactly (approach 3). -/
lemma sum_alloc_by_quintile (rows : List PropRow) (f : List Char) :
    ((quintilesOf3 rows f).map (fun q => alloc_by_quintile rows f q)).sum
      = total_allocated rows f := by
  have hcong : ∀ q ∈ quintilesOf3 rows f,
      alloc_by_quintile rows f q
        = (((rows.filter (fun r => decide (r.fsa = f))).filter
            (fun r => decide (r.quintile = q))).map allocated_population).sum :=
    fun q _ => alloc_by_quintile_eq_fiber rows f q
  rw [List.map_congr_left hcong, total_allocated]
  exact sum_filter_partition (fun r => r.quintile) allocated_population
    (rows.filter (fun r => decide (r.fsa = f))) (quintilesOf3 rows f)
    (List.nodup_dedup _)
    (fun a ha => by
      rw [quintilesOf3]
      exact List.mem_dedup.mpr (List.mem_map.mpr ⟨a, ha, rfl⟩))

/-- C7: in self-reallocation mode the per-stratum (FSA) sum of the allocated
values equals the StratumTotal exactly — not merely within tolerance — both
for the dominant-population approach (the quintile cell populations sum to
the FSA's total population) and for the proportional approach (the quintile
cell allocations sum to the FSA's total allocated population); consequently
the percentage-within-zone statistics of a stratum with a nonzero total sum
to exactly 100. -/
theorem spec_C7_self_reallocation_identity :
    (∀ (rows : List MargRow) (f : List Char),
      ((quintilesOf rows f).map (fun q => pop_by_quintile rows f q)).sum
        = total_population rows f
      ∧ (total_population rows f ≠ 0 →
          ((quintilesOf rows f).map (fun q => (pop_percentage rows f q).getD 0)).sum
            = 100))
    ∧ (∀ (rows : List PropRow) (f : List Char),
      ((quintilesOf3 rows f).map (fun q => alloc_by_quintile rows f q)).sum
        = total_allocated rows f
      ∧ (total_allocated rows f ≠ 0 →
          ((quintilesOf3 rows f).map (fun q => (pop_percentage3 rows f q).getD 0)).sum
            = 100)) := by
  constructor
  · intro rows f
    refine ⟨sum_pop_by_quintile rows f, fun hT => ?_⟩
    have hcong : ∀ q ∈ quintilesOf rows f,
        (pop_percentage rows f q).getD 0
          = pop_by_quintile rows f q * (100 / total_population rows f) := by
      intro q _
      rw [pop_percentage, pandasDiv, if_neg hT]
      simp only [Option.map_some', Option.getD_some]
      field_simp
    rw [List.map_congr_left hcong,
      List.sum_map_mul_right (quintilesOf rows f)
        (fun q => pop_by_quintile rows f q) (100 / total_population rows f),
      sum_pop_by_quintile rows f]
    field_simp
  · intro rows f
    refine ⟨sum_alloc_by_quintile rows f, fun hT => ?_⟩
    have hcong : ∀ q ∈ quintilesOf3 rows f,
        (pop_percentage3 rows f q).getD 0
          = alloc_by_quintile rows f q * (100 / total_allocated rows f) := by
      intro q _
      rw [pop_percentage3, pandasDiv, if_neg hT]
      simp only [Option.map_some', Option.getD_some]
      field_simp
    rw [List.map_congr_left hcong,
      List.sum_map_mul_right (quintilesOf3 rows f)
        (fun q => alloc_by_quintile rows f q) (100 / total_allocated rows f),
      sum_alloc_by_quintile rows f]
    field_simp

/-- Witness for C7: on the concrete FSA `M1J` of `ex8rows` (total population
80) the quintile cells sum to exactly 80 and the percentages to exactly 100;
likewise for the approach-3 fragments `c7prop` (total allocated 10). -/
theorem spec_C7_witness :
    ((quintilesOf ex8rows fsaM1J).map (fun q => pop_by_quintile ex8rows fsaM1J q)).sum
      = total_population ex8rows fsaM1J
    ∧ ((quintilesOf ex8rows fsaM1J).map
        (fun q => (pop_percentage ex8rows fsaM1J q).getD 0)).sum = 100
    ∧ ((quintilesOf3 c7prop fsaM1J).map
        (fun q => (pop_percentage3 c7prop fsaM1J q).getD 0)).sum = 100 := by
  have h1 : total_population ex8rows fsaM1J ≠ 0 := by
    simp [total_population, ex8rows, List.filter]
    norm_num
  have h2 : total_allocated c7prop fsaM1J ≠ 0 := by
    simp [total_allocated, c7prop, allocated_population, List.filter]
    norm_num
  exact ⟨(spec_C7_self_reallocation_identity.1 ex8rows fsaM1J).1,
    (spec_C7_self_reallocation_identity.1 ex8rows fsaM1J).2 h1,
    (spec_C7_self_reallocation_identity.2 c7prop fsaM1J).2 h2⟩

/-- Counterexample for C8 as stated: in the FSA `M1J` of `ex8rows` the
contributing units have unequal base values (10, 30, 20, 20), yet the
count-mode share table and the magnitude-mode share table coincide on every
quintile cell the source computes — both quintiles hold exactly half the DAs
and half the population, so every unit's cell share is 50% in both modes. -/
theorem spec_C8_cex :
    ex8rows.map (fun r => r.pop) = [10, 30, 20, 20]
    ∧ ((10 : ℚ) ≠ 30)
    ∧ quintilesOf ex8rows fsaM1J = [1, 2]
    ∧ da_percentage ex8rows fsaM1J 1 = some 50
    ∧ pop_percentage ex8rows fsaM1J 1 = some 50
    ∧ da_percentage ex8rows fsaM1J 2 = some 50
    ∧ pop_percentage ex8rows fsaM1J 2 = some 50 := by
  refine ⟨by simp [ex8rows], by norm_num, ?_, ?_, ?_, ?_, ?_⟩
  · simp [quintilesOf, ex8rows, List.filter, List.dedup_cons_of_not_mem,
      List.dedup_cons_of_mem]
  · simp [da_percentage, da_proportion, da_count, total_das, ex8rows,
      List.filter, pandasDiv]
    norm_num
  · simp [pop_percentage, pop_by_quintile, total_population, ex8rows,
      List.filter, pandasDiv]
    norm_num
  · simp [da_percentage, da_proportion, da_count, total_das, ex8rows,
      List.filter, pandasDiv]
    norm_num
  · simp [pop_percentage, pop_by_quintile, total_population, ex8rows,
      List.filter, pandasDiv]
    norm_num

/-- C8 (amended): count-mode and magnitude-mode shares are guaranteed to
differ only at a quintile cell whose population share differs from its DA
share (cross-multiplied: `DA_Count * Total_Population ≠`
`pop_by_quintile * Total_DAs`, i.e. the cell's mean base value differs from
the stratum mean); at every such cell the two percentage tables disagree.
Unequal unit base values alone do not force a difference (see the
counterexample). -/
theorem spec_C8_count_vs_magnitude :
    ∀ (rows : List MargRow) (f : List Char) (q : ℤ),
      (total_das rows f : ℚ) ≠ 0 →
      total_population rows f ≠ 0 →
      (da_count rows f q : ℚ) * total_population rows f
        ≠ pop_by_quintile rows f q * (total_das rows f : ℚ) →
      da_percentage rows f q ≠ pop_percentage rows f q := by
  intro rows f q hN hP hne h
  rw [da_percentage, da_proportion, pop_percentage, pandasDiv, pandasDiv,
    if_neg hN, if_neg hP] at h
  simp only [Option.map_some', Option.some.injEq] at h
  apply hne
  have h100 : ((da_count rows f q : ℚ) / (total_das rows f : ℚ))
      = pop_by_quintile rows f q / total_population rows f := by
    have : (100 : ℚ) ≠ 0 := by norm_num
    exact mul_right_cancel₀ this h
  rw [div_eq_div_iff hN hP] at h100
  exact h100

/-- Witness for C8's amended theorem: in `c8rows` quintile 1 holds one of the
two DAs but only 10 of the 40 inhabitants, so its count-mode share (50%) and
magnitude-mode share (25%) differ. -/
theorem spec_C8_witness :
    da_percentage c8rows fsaM1J 1 ≠ pop_percentage c8rows fsaM1J 1 := by
  refine spec_C8_count_vs_magnitude c8rows fsaM1J 1 ?_ ?_ ?_
  · simp [total_das, c8rows, List.filter]
  · simp [total_population, c8rows, List.filter]
    norm_num
  · simp [da_count, total_das, pop_by_quintile, total_population, c8rows,
      List.filter]
    norm_num

/-- C9: script 2 assigns every DA whose identifier starts with `'3518'`
wholly to Durham and (else) every one starting with `'3519'` wholly to York,
excludes all others (`none`), and never splits a unit: every output row
carries the full original population and all rows of one DA get the same
region.  In particular the border DAs 35190009 and 35190965 — which script 1
splits fractionally between Durham and York (shown for 35190009 with
population 80: fragments 10 and 70) — are assigned entirely to York with
their full population. -/
theorem spec_C9_whole_unit_assignment :
    (∀ s : List Char, durhamCode.isPrefixOf s = true →
      assign_region_by_da s = some Region.Durham)
    ∧ (∀ s : List Char, assign_region_by_da s = some Region.York
        ↔ (yorkCode.isPrefixOf s = true ∧ durhamCode.isPrefixOf s = false))
    ∧ (∀ s : List Char, assign_region_by_da s = none
        ↔ (durhamCode.isPrefixOf s = false ∧ yorkCode.isPrefixOf s = false))
    ∧ (∀ (rows : List DARow) (c : CRow), c ∈ df_da2 rows →
        assign_region_by_da c.da_uid = some c.region
        ∧ ∃ r ∈ rows, r.da_uid = c.da_uid ∧ r.ageGroup = c.ageGroup
            ∧ r.sex = c.sex ∧ r.pop = c.pop)
    ∧ (∀ (rows : List DARow) (a b : CRow), a ∈ df_da2 rows → b ∈ df_da2 rows →
        a.da_uid = b.da_uid → a.region = b.region)
    ∧ assign_region_by_da uidB1 = some Region.York
    ∧ assign_region_by_da uidB2 = some Region.York
    ∧ df_da2 [b1row80]
        = [{ da_uid := uidB1, ageGroup := AgeGroup.A0to17, sex := Sex.M,
             region := Region.York, pop := 80 }]
    ∧ df_da_clean DA_BORDER_DAs [b1row80]
        = [{ da_uid := uidB1, ageGroup := AgeGroup.A0to17, sex := Sex.M,
             region := Region.Durham, pop := 10 },
           { da_uid := uidB1, ageGroup := AgeGroup.A0to17, sex := Sex.M,
             region := Region.York, pop := 70 }] := by
  have hmem : ∀ (rows : List DARow) (c : CRow), c ∈ df_da2 rows →
      assign_region_by_da c.da_uid = some c.region
      ∧ ∃ r ∈ rows, r.da_uid = c.da_uid ∧ r.ageGroup = c.ageGroup
          ∧ r.sex = c.sex ∧ r.pop = c.pop := by
    intro rows c hc
    rw [df_da2] at hc
    obtain ⟨r, hr, hmap⟩ := List.mem_filterMap.mp hc
    obtain ⟨reg, hreg, hrow⟩ := Option.map_eq_some'.mp hmap
    subst hrow
    exact ⟨hreg, r, hr, rfl, rfl, rfl, rfl⟩
  refine ⟨?_, ?_, ?_, hmem, ?_, by decide, by decide, ?_, ?_⟩
  · intro s h
    rw [assign_region_by_da, if_pos h]
  · intro s
    rw [assign_region_by_da]
    split_ifs with h1 h2 <;> simp_all [Bool.eq_false_iff]
  · intro s
    rw [assign_region_by_da]
    split_ifs with h1 h2 <;> simp_all [Bool.eq_false_iff]
  · intro rows a b ha hb hab
    have h1 := (hmem rows a ha).1
    have h2 := (hmem rows b hb).1
    rw [hab] at h1
    rw [h1] at h2
    exact (Option.some.injEq _ _).mp h2
  · have hp : yorkCode <+: uidB1 := by decide
    have hd : ¬ durhamCode <+: uidB1 := by decide
    simp [df_da2, b1row80, assign_region_by_da, hp, hd]
  · have hl : (DA_BORDER_DAs.lookup uidB1).isSome = true := by decide
    have he : DA_BORDER_DAs.lookup uidB1
        = some [(Region.Durham, 0.125), (Region.York, 0.875)] := by
      rw [DA_BORDER_DAs]
      rw [List.lookup]
      simp
    simp [df_da_clean, df_da_tagged, df_border_split, b1row80, rowRegion,
      assign_region, hl, he]
    norm_num

/-- Witness for C9: the prefix rule applied to the concrete Durham DA
35180001, and the membership law applied to the concrete output row of
`df_da2 [b1row80]`. -/
theorem spec_C9_witness :
    assign_region_by_da uidA = some Region.Durham
    ∧ (assign_region_by_da
        ({ da_uid := uidB1, ageGroup := AgeGroup.A0to17, sex := Sex.M,
             region := Region.York, pop := 80 } : CRow).da_uid
        = some ({ da_uid := uidB1, ageGroup := AgeGroup.A0to17, sex := Sex.M,
                    region := Region.York, pop := 80 } : CRow).region) := by
  constructor
  · exact spec_C9_whole_unit_assignment.1 uidA (by decide)
  · refine (spec_C9_whole_unit_assignment.2.2.2.1 [b1row80]
      ({ da_uid := uidB1, ageGroup := AgeGroup.A0to17, sex := Sex.M,
           region := Region.York, pop := 80 } : CRow) ?_).1
    have hp : yorkCode <+: uidB1 := by decide
    have hd : ¬ durhamCode <+: uidB1 := by decide
    simp [df_da2, b1row80, assign_region_by_da, hp, hd]
